import Mathlib

/-!
Shallow embedding of the SPHOTA.AI hybrid intent-resolution engine.

Sources embedded (paths relative to the repository root):
  - src/core/intent_engine.py      (IntentEngine: stage 1 retrieval, stage 2
                                    deterministic check, fallback, public API)
  - src/core/context_matrix.py     (ContextObject, ContextResolutionMatrix
                                    weights and get_active_factors)
  - src/core/fast_memory_simple.py (FastMemory in-memory store)
  - src/core/context_engine.py     (ContextResolutionEngine: 12-factor
                                    resolution, score normalisation,
                                    confidence estimate)
  - src/core/feedback_manager.py   (FeedbackManager running statistics)

Modelling conventions:
  - Python floats are modelled by exact rationals (ℚ).  The numerical claims
    at stake (clamping bounds, threshold comparisons, the confidence formula,
    determinism) are about exact arithmetic relations that the float code
    computes approximately.
  - The Euclidean norm used by fast memory is modelled by an exact rational
    square root qSqrt, which agrees with the mathematical square root on
    every perfect rational square (all concrete instances used below);
    numpy float sqrt is itself an approximation of the same function.
  - Python dict context arguments are modelled by a record of the optional
    keys the code reads; Python truthiness of the values is modelled
    explicitly (empty list, empty string and 0.0 are falsy).
  - The ContextObject dataclass is embedded exactly as declared in
    context_matrix.py, with the Sanskrit field names (sahacarya, virodhita,
    artha, prakarana, linga, shabda_samarthya, auciti, desa, kala, vyakti,
    svara, apabhramsa).  The accessors in intent_engine.py use English
    names (history, conflict, ...), so the shipped code raises TypeError
    when _build_context_object constructs ContextObject with English
    keyword arguments and AttributeError when Stage 2 reads English
    attributes.  Resolution is therefore embedded as an Except-valued
    function over an explicit PyError type, raising exactly where the
    source raises; the exceptional outcomes this captures are the subject
    of claims C1, C2, C6 and C10.
  - datetime.now() is modelled by an explicit `now : Nat` argument threaded
    into resolution (the source evaluates it while building the keyword
    arguments of the failing constructor call; the raised error does not
    depend on it).
-/

namespace Sphota

/-- Clamp a score into the closed interval [0,1]; the source writes
`max(0.0, min(1.0, x))`. -/
def clampQ (x : ℚ) : ℚ := max 0 (min 1 x)

/-- Python truthiness of an optional string: `None` and `""` are falsy. -/
def strTruthy : Option String → Bool
  | none => false
  | some s => !s.isEmpty

/-- Python truthiness of an optional list: `None` and `[]` are falsy. -/
def listTruthy {α : Type} : Option (List α) → Bool
  | none => false
  | some l => !l.isEmpty

/-- Python substring test `pat in s` for a nonempty pattern `pat`. -/
def containsSub (s pat : String) : Bool := (s.splitOn pat).length > 1

/-- Dot product of two equal-length rational vectors (`np.dot`). -/
def dotQ (v w : List ℚ) : ℚ := (List.zipWith (· * ·) v w).sum

/-- Exact rational square root: agrees with the mathematical square root on
every perfect rational square (`qSqrt (p^2/q^2) = p/q` for reduced
fractions); models `np.linalg.norm` composed with the squared sum. -/
def qSqrt (x : ℚ) : ℚ := (Nat.sqrt x.num.toNat : ℚ) / (Nat.sqrt x.den : ℚ)

/-- Python slice `l[-k:]` for a natural `k`; for `k = 0` the slice is the
whole list (`l[-0:] == l[0:]`), exactly as in Python. -/
def pyLastSlice {α : Type} (l : List α) (k : Nat) : List α :=
  if k = 0 then l else l.drop (l.length - k)

/-- Stable insertion step for an ascending sort by a rational key. -/
def insertAscBy {α : Type} (key : α → ℚ) (x : α) : List α → List α
  | [] => [x]
  | y :: ys => if key x ≤ key y then x :: y :: ys else y :: insertAscBy key x ys

/-- Stable ascending sort by a rational key (models the deterministic order
`np.argsort` induces on the similarity array; ties keep store order). -/
def pySortAscBy {α : Type} (key : α → ℚ) (l : List α) : List α :=
  l.foldr (insertAscBy key) []

/-- Stable insertion step for a descending sort by a rational key. -/
def insertDescBy {α : Type} (key : α → ℚ) (x : α) : List α → List α
  | [] => [x]
  | y :: ys => if key y ≤ key x then x :: y :: ys else y :: insertDescBy key x ys

/-- Stable descending sort by a rational key; models Python
`sorted(..., key=..., reverse=True)`, which is stable. -/
def pySortDescBy {α : Type} (key : α → ℚ) (l : List α) : List α :=
  l.foldr (insertDescBy key) []

/-! ### Fast Memory (src/core/fast_memory_simple.py) -/

/-- Stored memory record: the dict appended by `FastMemory.add_memory`
(`document` is the original utterance) together with the row the embedding
matrix holds for it.  Metadata is not read by any claim-relevant code path
and is omitted. -/
structure MemoryEntry where
  intent_id : String
  document : String
  embedding : List ℚ
  deriving Repr, DecidableEq

/-- Candidate returned from Fast Memory (`MemoryCandidate` dataclass). -/
structure MemoryCandidate where
  intent_id : String
  original_text : String
  similarity_score : ℚ
  deriving Repr, DecidableEq

/-- FastMemory.retrieve_candidates: normalise query and stored embeddings,
compute cosine similarities, pick the top-k indices by
`np.argsort(similarities)[-top_k:][::-1]` and build candidates.  The simple
implementation ignores the `user_input` argument. -/
def retrieve_candidates (memories : List MemoryEntry) (embedding : List ℚ)
    (top_k : Nat) : List MemoryCandidate :=
  if memories.isEmpty then [] else
  let query_norm := qSqrt (dotQ embedding embedding)
  let query := if 0 < query_norm then embedding.map (· / query_norm) else embedding
  let scored := memories.map (fun m =>
    let n := qSqrt (dotQ m.embedding m.embedding)
    let n2 := if n = 0 then 1 else n
    (m, dotQ (m.embedding.map (· / n2)) query))
  let k := min top_k memories.length
  let top := (pyLastSlice (pySortAscBy (fun p => p.2) scored) k).reverse
  top.map (fun p => ⟨p.1.intent_id, p.1.document, p.2⟩)

/-- FastMemory.add_memory: append a record and its embedding row. -/
def add_memory (memories : List MemoryEntry) (user_input : String)
    (resolved_intent_id : String) (embedding : List ℚ) : List MemoryEntry :=
  memories ++ [⟨resolved_intent_id, user_input, embedding⟩]

/-! ### Intent data model (src/core/intent_engine.py) -/

/-- Required-context dictionary of an intent: the keys the engine reads
(`location`, `location_required`, `user_profile`, `purpose`, `situation`,
`associated_intents`). -/
structure RequiredContext where
  location : Option String := none
  location_required : Bool := false
  user_profile : Option String := none
  purpose : Option String := none
  situation : Option String := none
  associated_intents : Option (List String) := none
  deriving Repr, DecidableEq

/-- Intent dataclass (a Pure Meaning of the corpus). -/
structure Intent where
  id : String
  pure_text : String := ""
  description : String := ""
  required_context : RequiredContext := {}
  examples : List String := []
  embedding : List ℚ := []
  deriving Repr, DecidableEq

/-- SemanticCandidate dataclass produced by Stage 1. -/
structure SemanticCandidate where
  candidate_intent : Intent
  semantic_similarity : ℚ
  source : String
  deriving Repr, DecidableEq

/-- VerifiedIntent dataclass: the result of the two-stage hybrid pipeline. -/
structure VerifiedIntent where
  intent : Intent
  semantic_candidates : List SemanticCandidate
  stage_1_passed : Bool
  stage_2_passed : Bool
  fallback_used : Bool
  confidence : ℚ
  context_adjusted_score : ℚ
  active_factors : List String
  deriving Repr, DecidableEq

/-- ResolvedIntent dataclass (backward-compatible public result). -/
structure ResolvedIntent where
  intent : Intent
  raw_similarity : ℚ
  context_adjusted_score : ℚ
  active_factors : List String
  confidence : ℚ
  deriving Repr, DecidableEq

/-! ### Context objects (src/core/context_matrix.py and the dict mapping in
IntentEngine._build_context_object) -/

/-- Python exception kinds raised by the context machinery of the shipped
code (see claim C6). -/
inductive PyError where
  | typeError (msg : String)
  | attributeError (msg : String)
  deriving Repr, DecidableEq

/-- TypeError raised by `ContextObject(history=..., ...)`: the dataclass
constructor rejects the first English keyword argument
(intent_engine.py:609 against context_matrix.py:25-42). -/
def kw_error_history : PyError :=
  .typeError "ContextObject.__init__ got an unexpected keyword argument history"

/-- AttributeError raised by reading `current_context.distortion` on the
Sanskrit-field dataclass (intent_engine.py:600). -/
def attr_error_distortion : PyError :=
  .attributeError "ContextObject object has no attribute distortion"

/-- AttributeError raised by reading `context_obj.conflict` in the first
Hard Stop rule (intent_engine.py:396). -/
def attr_error_conflict : PyError :=
  .attributeError "ContextObject object has no attribute conflict"

/-- ContextObject: the twelve contextual factors exactly as the dataclass
in context_matrix.py declares them — the Sanskrit determinant names, in
declaration order.  The kala (time) factor is modelled by an abstract
timestamp. -/
structure ContextObject where
  sahacarya : Option (List String) := none
  virodhita : Option (List String) := none
  artha : Option String := none
  prakarana : Option String := none
  linga : Option String := none
  shabda_samarthya : Option ℚ := none
  auciti : Option ℚ := none
  desa : Option String := none
  kala : Option Nat := none
  vyakti : Option String := none
  svara : Option String := none
  apabhramsa : Option ℚ := none
  deriving Repr, DecidableEq

/-- Context dictionary passed by callers: the English keys and the
backward-compatible Sanskrit keys whose values the dict branch of
`_build_context_object` evaluates (via `.get` and Python `or`) while
assembling the keyword arguments of the ContextObject constructor call.
The assembled values are discarded, because that constructor call itself
raises (claim C6), so no field of this record influences any outcome. -/
structure ContextDict where
  history : Option (List String) := none
  sahacarya : Option (List String) := none
  conflict : Option (List String) := none
  virodhita : Option (List String) := none
  purpose : Option String := none
  artha : Option String := none
  situation : Option String := none
  prakarana : Option String := none
  indicator : Option String := none
  linga : Option String := none
  word_power : Option ℚ := none
  shabda_samarthya : Option ℚ := none
  propriety : Option ℚ := none
  auciti : Option ℚ := none
  location : Option String := none
  desa : Option String := none
  time : Option Nat := none
  kala : Option Nat := none
  user_profile : Option String := none
  vyakti : Option String := none
  intonation : Option String := none
  svara : Option String := none
  deriving Repr, DecidableEq

/-- The `current_context` argument of resolution:
`Union[Dict[str, Any], ContextObject, None]`. -/
inductive CtxArg where
  | dict (d : ContextDict)
  | obj (o : ContextObject)
  | nil
  deriving Repr, DecidableEq

/-- IntentEngine._build_context_object, faithfully including its error
behaviour on the shipped Sanskrit-field dataclass.
ContextObject branch: when `distortion_score > 0` the code reads
`current_context.distortion`, an attribute the dataclass does not define,
and raises AttributeError (the `and` short-circuits when the score is 0, so
the object passes through unchanged).
None and dict branches: the code evaluates the keyword-argument
expressions (all the `.get`/`or` chains and `datetime.now()`, here the
`_now` argument) and then calls `ContextObject(history=..., ...)`, which
raises TypeError on the first unexpected English keyword. -/
def build_context_object (current_context : CtxArg) (distortion_score : ℚ)
    (_now : Nat) : Except PyError ContextObject :=
  match current_context with
  | .obj o =>
      if 0 < distortion_score then .error attr_error_distortion
      else .ok o
  | .nil => .error kw_error_history
  | .dict _ => .error kw_error_history

/-- Normalisation at the top of resolve_with_hybrid_logic (line 503):
`if current_context is None: current_context = {}`. -/
def normalize_context_arg : CtxArg → CtxArg
  | .nil => .dict {}
  | c => c

/-! ### Stage 1 — Semantic Flash (IntentEngine._get_semantic_candidates) -/

/-- IntentEngine.cosine_similarity: dot product of the (already normalised)
vectors, clamped into [0,1]. -/
def cosine_similarity (v w : List ℚ) : ℚ := clampQ (dotQ v w)

/-- Insert into an association list with Python dict semantics: an existing
key keeps its position and takes the new value, a new key is appended. -/
def dictUpsert (l : List (String × ℚ)) (k : String) (v : ℚ) :
    List (String × ℚ) :=
  if l.any (fun p => p.1 == k) then
    l.map (fun p => if p.1 == k then (p.1, v) else p)
  else l ++ [(k, v)]

/-- IntentEngine._calculate_raw_similarities: similarity of the input
embedding against every catalog intent, collected into a dict keyed by
intent id (Python dict: later duplicate ids overwrite the value). -/
def calculate_raw_similarities (cat : List Intent) (emb : List ℚ) :
    List (String × ℚ) :=
  cat.foldl (fun d i => dictUpsert d i.id (cosine_similarity emb i.embedding)) []

/-- IntentEngine.get_intent_by_id: first catalog intent with the given id. -/
def get_intent_by_id (cat : List Intent) (iid : String) : Option Intent :=
  cat.find? (fun i => i.id == iid)

/-- Memory-sourced part of Stage 1: top-5 Fast Memory candidates mapped to
catalog intents (unknown ids dropped), source `memory_boost`. -/
def memory_stage1 (cat : List Intent) (mem : List MemoryEntry)
    (emb : List ℚ) : List SemanticCandidate :=
  (retrieve_candidates mem emb 5).filterMap (fun mc =>
    (get_intent_by_id cat mc.intent_id).map
      (fun i => ⟨i, mc.similarity_score, "memory_boost"⟩))

/-- Vector-search part of Stage 1: top-5 catalog similarities, skipping ids
already delivered by memory, source `vector_search`. -/
def vector_stage1 (cat : List Intent) (mem : List MemoryEntry)
    (emb : List ℚ) : List SemanticCandidate :=
  let memory_intent_ids :=
    (memory_stage1 cat mem emb).map (fun c => c.candidate_intent.id)
  let sorted_intents := pySortDescBy (fun p => p.2) (calculate_raw_similarities cat emb)
  (sorted_intents.take 5).filterMap (fun p =>
    if memory_intent_ids.contains p.1 then none
    else (get_intent_by_id cat p.1).map (fun i => ⟨i, p.2, "vector_search"⟩))

/-- IntentEngine._get_semantic_candidates: memory candidates followed by the
filtered vector-search candidates, sorted by similarity descending.  Note
that the merged list is NOT truncated after the sort. -/
def get_semantic_candidates (cat : List Intent) (mem : List MemoryEntry)
    (emb : List ℚ) : List SemanticCandidate :=
  pySortDescBy (fun c => c.semantic_similarity)
    (memory_stage1 cat mem emb ++ vector_stage1 cat mem emb)

/-! ### Stage 2 — Deterministic Check (IntentEngine._apply_deterministic_check,
with ContextResolutionMatrix.get_active_factors) -/

/-- ContextResolutionMatrix.get_active_factors
(context_matrix.py:473-509): truthiness test for the list, string and
datetime factors, an is-not-None test for the three float factors, emitting
the Sanskrit factor names in declaration order.  These reads succeed on the
shipped dataclass (the Sanskrit attributes exist); `if context.kala:` is a
truthiness test on a datetime, which is always truthy when present. -/
def get_active_factors (context : ContextObject) : List String :=
  (if listTruthy context.sahacarya then ["sahacarya"] else []) ++
  (if listTruthy context.virodhita then ["virodhita"] else []) ++
  (if strTruthy context.artha then ["artha"] else []) ++
  (if strTruthy context.prakarana then ["prakarana"] else []) ++
  (if strTruthy context.linga then ["linga"] else []) ++
  (if context.shabda_samarthya.isSome then ["shabda_samarthya"] else []) ++
  (if context.auciti.isSome then ["auciti"] else []) ++
  (if strTruthy context.desa then ["desa"] else []) ++
  (if context.kala.isSome then ["kala"] else []) ++
  (if strTruthy context.vyakti then ["vyakti"] else []) ++
  (if strTruthy context.svara then ["svara"] else []) ++
  (if context.apabhramsa.isSome then ["apabhramsa"] else [])

/-- IntentEngine._apply_deterministic_check, faithfully including its error
behaviour.  An empty candidate list returns `(None, False)` (line 376).
Otherwise the method builds the context object (line 380, which itself can
raise), computes the active factors (line 383, Sanskrit reads that
succeed), and then enters the per-candidate loop whose first Hard Stop rule
reads `context_obj.conflict` (line 396) — an English attribute the shipped
dataclass does not define — raising AttributeError on the first candidate,
before any hard stop, boost, winner selection or VerifiedIntent
construction can run.  The computed active factors are discarded by the
raise. -/
def apply_deterministic_check (cands : List SemanticCandidate)
    (current_context : CtxArg) (distortion_score : ℚ) (now : Nat) :
    Except PyError (Option VerifiedIntent × Bool) :=
  if cands.isEmpty then .ok (none, false) else
  match build_context_object current_context distortion_score now with
  | .error e => .error e
  | .ok ctxObj =>
      let _active := get_active_factors ctxObj
      .error attr_error_conflict

/-- IntentEngine._create_fallback_intent: the sentinel uncertain intent
(the pure_text contraction is transcribed expanded, "I am" for the source
"I + apostrophe + m"; no claim depends on this string). -/
def fallback_intent_obj : Intent :=
  { id := "__fallback_uncertain__"
    pure_text := "I am not certain about your intent. Please rephrase."
    description := "Fallback response when confidence is too low"
    required_context := {}
    examples := []
    embedding := [] }

/-- IntentEngine._create_fallback_intent as a VerifiedIntent with the
fallback flag set and the reason code as the single active factor. -/
def create_fallback_intent (reason : String) (confidence : ℚ)
    (stage_1_passed : Bool) : VerifiedIntent :=
  ⟨fallback_intent_obj, [], stage_1_passed, false, true, confidence,
    confidence, [reason]⟩

/-- IntentEngine.resolve_with_hybrid_logic, with the error behaviour of the
shipped code made explicit.  The external encoder `_encode_input` is
deterministic for a fixed model, so its output enters as the
`emb` / `distortion_score` arguments; `now` models `datetime.now()`.
Stage 1 candidates are computed first; an empty candidate list returns the
no_semantic_candidates fallback before Stage 2 runs.  Otherwise the
deterministic check is invoked, and in the shipped code it always raises
(claim C6), so the stage_2_failed / low_confidence / winner branches below
— transcribed from lines 528-539 of the source — are never reached; they
are kept to mirror the source text. -/
def resolve_with_hybrid_logic (cat : List Intent) (mem : List MemoryEntry)
    (emb : List ℚ) (distortion_score : ℚ) (current_context : CtxArg)
    (now : Nat) : Except PyError VerifiedIntent :=
  let ctxArg := normalize_context_arg current_context
  let cands := get_semantic_candidates cat mem emb
  if cands.isEmpty then
    .ok (create_fallback_intent "no_semantic_candidates" 0 false)
  else
    match apply_deterministic_check cands ctxArg distortion_score now with
    | .error e => .error e
    | .ok (none, _) => .ok (create_fallback_intent "stage_2_failed" 0 true)
    | .ok (some v, s2) =>
        if !s2 || v.confidence < 6/10 then
          .ok (create_fallback_intent
            (if v.confidence < 6/10 then "low_confidence" else "stage_2_failed")
            v.confidence true)
        else .ok v

/-- IntentEngine.resolve_intent: run the hybrid pipeline (propagating its
exception, which in the shipped code occurs for every request whose Stage 1
finds candidates), convert to the backward-compatible ResolvedIntent (raw
similarity fixed at 0.0), write the non-fallback resolution into Fast
Memory when requested, and return a singleton list together with the
updated memory store.  The `return_top_k` parameter is accepted and never
read, as in the source. -/
def resolve_intent (cat : List Intent) (mem : List MemoryEntry)
    (user_input : String) (emb : List ℚ) (distortion_score : ℚ)
    (current_context : CtxArg) (now : Nat) (return_top_k : Nat := 3)
    (store_in_memory : Bool := true) :
    Except PyError (List ResolvedIntent × List MemoryEntry) :=
  match resolve_with_hybrid_logic cat mem emb distortion_score
      current_context now with
  | .error e => .error e
  | .ok verified =>
      let resolved : ResolvedIntent :=
        ⟨verified.intent, 0, verified.context_adjusted_score,
          verified.active_factors, verified.confidence⟩
      let mem2 :=
        if store_in_memory && !verified.fallback_used then
          add_memory mem user_input resolved.intent.id emb
        else mem
      .ok ([resolved], mem2)

/-! ### Context Resolution Engine (src/core/context_engine.py) -/

/-- ContextSnapshot: the twelve optional factors of the standalone
ContextResolutionEngine, field names as declared in context_engine.py.
The temporal factor is modelled by the hour the code extracts from the
timestamp. -/
structure ContextSnapshot where
  association_history : Option (List String) := none
  conflict_markers : Option (List String) := none
  goal_alignment : Option String := none
  situation_context : Option String := none
  linguistic_indicators : Option String := none
  semantic_capacity : Option ℚ := none
  social_propriety : Option ℚ := none
  location_context : Option String := none
  temporal_context : Option Nat := none
  user_profile : Option String := none
  prosodic_features : Option String := none
  input_fidelity : Option ℚ := none
  deriving Repr, DecidableEq

/-- ContextSnapshot.get_active_factors: an is-not-None test on every one of
the twelve fields, in declaration order. -/
def snapshot_active_factors (c : ContextSnapshot) : List String :=
  (if c.association_history.isSome then ["association_history"] else []) ++
  (if c.conflict_markers.isSome then ["conflict_markers"] else []) ++
  (if c.goal_alignment.isSome then ["goal_alignment"] else []) ++
  (if c.situation_context.isSome then ["situation_context"] else []) ++
  (if c.linguistic_indicators.isSome then ["linguistic_indicators"] else []) ++
  (if c.semantic_capacity.isSome then ["semantic_capacity"] else []) ++
  (if c.social_propriety.isSome then ["social_propriety"] else []) ++
  (if c.location_context.isSome then ["location_context"] else []) ++
  (if c.temporal_context.isSome then ["temporal_context"] else []) ++
  (if c.user_profile.isSome then ["user_profile"] else []) ++
  (if c.prosodic_features.isSome then ["prosodic_features"] else []) ++
  (if c.input_fidelity.isSome then ["input_fidelity"] else [])

/-- Knowledge map `association_patterns`. -/
def association_patterns : List (String × List String) :=
  [("cooking", ["timer", "recipe", "ingredients", "temperature", "heat"]),
   ("music", ["volume", "playlist", "song", "artist", "play"]),
   ("navigation", ["traffic", "route", "directions", "arrive", "gps"]),
   ("work", ["meeting", "schedule", "email", "calendar", "task"]),
   ("exercise", ["timer", "workout", "fitness", "heart_rate", "steps"])]

/-- Knowledge map `conflict_pairs`. -/
def conflict_pairs : List (String × List String) :=
  [("cancel", ["create", "start", "begin", "schedule"]),
   ("stop", ["play", "start", "continue", "run"]),
   ("close", ["open", "launch", "start", "activate"]),
   ("decrease", ["increase", "raise", "boost", "enhance"]),
   ("no", ["yes", "confirm", "accept", "allow"])]

/-- Knowledge map `goal_groups`. -/
def goal_groups : List (String × List String) :=
  [("productivity", ["work", "schedule", "reminder", "meeting", "focus"]),
   ("entertainment", ["music", "video", "game", "movie", "play"]),
   ("information", ["search", "query", "weather", "news", "wiki"]),
   ("communication", ["call", "message", "text", "email", "notify"]),
   ("automation", ["timer", "alarm", "reminder", "routine"])]

/-- Knowledge map `situation_intents`. -/
def situation_intents : List (String × List String) :=
  [("morning_routine", ["alarm", "weather", "news", "coffee", "commute"]),
   ("cooking", ["recipe", "timer", "ingredients", "heat", "food"]),
   ("travel", ["navigation", "traffic", "weather", "booking"]),
   ("work_session", ["focus", "timer", "schedule", "productivity"]),
   ("evening_relax", ["music", "dim_lights", "entertainment"])]

/-- Knowledge map `location_intents`. -/
def location_intents : List (String × List String) :=
  [("kitchen", ["cooking", "recipe", "timer", "food", "heat"]),
   ("bedroom", ["sleep", "alarm", "wake", "rest", "lights"]),
   ("office", ["work", "meeting", "productivity", "focus", "email"]),
   ("car", ["navigation", "traffic", "music", "hands_free", "call"]),
   ("gym", ["workout", "exercise", "timer", "fitness", "music"]),
   ("home", ["lights", "temperature", "security", "entertainment"])]

/-- TimeOfDay enumeration. -/
inductive TimeOfDay where
  | early_morning | morning | afternoon | evening | night | late_night
  deriving Repr, DecidableEq

/-- ContextResolutionEngine._classify_time_of_day on the hour of the
timestamp. -/
def classify_time_of_day (hour : Nat) : TimeOfDay :=
  if 4 ≤ hour ∧ hour < 6 then .early_morning
  else if 6 ≤ hour ∧ hour < 12 then .morning
  else if 12 ≤ hour ∧ hour < 17 then .afternoon
  else if 17 ≤ hour ∧ hour < 21 then .evening
  else if 21 ≤ hour ∧ hour < 23 then .night
  else .late_night

/-- Knowledge map `time_period_intents`. -/
def time_period_intents : TimeOfDay → List String
  | .early_morning => ["alarm", "wake", "weather", "news"]
  | .morning => ["breakfast", "coffee", "schedule", "commute"]
  | .afternoon => ["lunch", "meeting", "work", "focus"]
  | .evening => ["dinner", "relax", "entertainment", "music"]
  | .night => ["sleep", "quiet", "lights_off", "bedtime"]
  | .late_night => ["sleep", "rest", "quiet", "dark"]

/-- Knowledge map `user_preferences`. -/
def user_preferences : List (String × List String) :=
  [("tech_enthusiast", ["automation", "smart_home", "advanced"]),
   ("casual_user", ["entertainment", "music", "simple"]),
   ("productivity_focused", ["work", "schedule", "task"]),
   ("fitness_oriented", ["exercise", "health", "workout"])]

/-- Add `delta` to the score of every intent whose lowercased id contains
one of the keywords (the inner loop shared by most factor methods). -/
def boost_matching (kws : List String) (delta : ℚ)
    (scores : List (String × ℚ)) : List (String × ℚ) :=
  scores.map (fun p =>
    if kws.any (fun kw => containsSub p.1.toLower kw) then (p.1, p.2 + delta)
    else p)

/-- ContextResolutionEngine._apply_association_factor: every recent intent
is matched against every association pattern whose key occurs in it as a
substring, and each match boosts the matching intents by the weight. -/
def apply_association_factor (weight : ℚ) (scores : List (String × ℚ))
    (history : List String) : List (String × ℚ) :=
  history.foldl (fun sc recent =>
    association_patterns.foldl (fun sc2 row =>
      if containsSub recent.toLower row.1 then boost_matching row.2 weight sc2
      else sc2) sc) scores

/-- ContextResolutionEngine._apply_conflict_factor: each marker that is a
key of the conflict table penalises the opposing intents by the weight. -/
def apply_conflict_factor (weight : ℚ) (scores : List (String × ℚ))
    (markers : List String) : List (String × ℚ) :=
  markers.foldl (fun sc marker =>
    match conflict_pairs.find? (fun row => row.1 == marker.toLower) with
    | some row => boost_matching row.2 (-weight) sc
    | none => sc) scores

/-- Shared shape of the goal / situation / location / user-profile factors:
exact lowercased key lookup in the map, then a keyword boost. -/
def apply_group_factor (m : List (String × List String)) (weight : ℚ)
    (scores : List (String × ℚ)) (k : String) : List (String × ℚ) :=
  match m.find? (fun row => row.1 == k.toLower) with
  | some row => boost_matching row.2 weight scores
  | none => scores

/-- ContextResolutionEngine._apply_temporal_factor. -/
def apply_temporal_factor (weight : ℚ) (scores : List (String × ℚ))
    (hour : Nat) : List (String × ℚ) :=
  boost_matching (time_period_intents (classify_time_of_day hour)) weight scores

/-- ContextResolutionEngine._apply_semantic_capacity_factor: multiply every
score by `1 + weight * capacity`. -/
def apply_semantic_capacity_factor (weight : ℚ) (scores : List (String × ℚ))
    (capacity : ℚ) : List (String × ℚ) :=
  scores.map (fun p => (p.1, p.2 * (1 + weight * capacity)))

/-- ContextResolutionEngine._apply_propriety_factor: add
`weight * propriety` to every score. -/
def apply_propriety_factor (weight : ℚ) (scores : List (String × ℚ))
    (propriety : ℚ) : List (String × ℚ) :=
  scores.map (fun p => (p.1, p.2 + weight * propriety))

/-- ContextResolutionEngine._apply_fidelity_factor: subtract
`weight * (1 - fidelity)` from every score. -/
def apply_fidelity_factor (weight : ℚ) (scores : List (String × ℚ))
    (fidelity : ℚ) : List (String × ℚ) :=
  scores.map (fun p => (p.1, p.2 - weight * (1 - fidelity)))

/-- ContextResolutionEngine._validate_scores as a boolean: every base score
lies in [0,1] (the source raises ValueError otherwise). -/
def validate_scores (scores : List (String × ℚ)) : Bool :=
  scores.all (fun p => 0 ≤ p.2 && p.2 ≤ 1)

/-- ContextResolutionEngine._normalize_scores: clamp every score. -/
def normalize_scores (scores : List (String × ℚ)) : List (String × ℚ) :=
  scores.map (fun p => (p.1, clampQ p.2))

/-- ContextResolutionEngine._estimate_confidence. -/
def estimate_confidence (active_factors : List String)
    (score_deltas : List (String × ℚ)) : ℚ :=
  let factor_confidence := min 1 ((active_factors.length : ℚ) / 6)
  let avg_delta :=
    if score_deltas.isEmpty then 0
    else (score_deltas.map (fun p => |p.2|)).sum / (score_deltas.length : ℚ)
  let delta_confidence := min 1 avg_delta
  (6/10) * factor_confidence + (4/10) * delta_confidence

/-- ResolutionResult value object (factor contribution tracking, which no
claim mentions, is omitted). -/
structure ResolutionResult where
  resolved_scores : List (String × ℚ)
  active_factors : List String
  score_deltas : List (String × ℚ)
  confidence_estimate : ℚ
  deriving Repr, DecidableEq

/-- Apply a factor only when the corresponding snapshot field is present
(the `if context.x is not None:` pattern of ContextResolutionEngine.resolve);
absent fields are no-ops. -/
def opt_factor {γ : Type} (o : Option γ)
    (f : γ → List (String × ℚ) → List (String × ℚ))
    (sc : List (String × ℚ)) : List (String × ℚ) :=
  match o with
  | some g => f g sc
  | none => sc

/-- Apply the twelve factors of ContextResolutionEngine.resolve in source
order (linguistic and prosodic factors are placeholders returning the
scores unchanged). -/
def apply_all_factors (ew : String → ℚ) (base_scores : List (String × ℚ))
    (context : ContextSnapshot) : List (String × ℚ) :=
  let s1 := opt_factor context.association_history
    (fun h sc => apply_association_factor (ew "association_history") sc h)
    base_scores
  let s2 := opt_factor context.conflict_markers
    (fun ms sc => apply_conflict_factor (ew "conflict_markers") sc ms) s1
  let s3 := opt_factor context.goal_alignment
    (fun g sc => apply_group_factor goal_groups (ew "goal_alignment") sc g) s2
  let s4 := opt_factor context.situation_context
    (fun s sc => apply_group_factor situation_intents (ew "situation_context") sc s) s3
  let s6 := opt_factor context.semantic_capacity
    (fun c sc => apply_semantic_capacity_factor (ew "semantic_capacity") sc c) s4
  let s7 := opt_factor context.social_propriety
    (fun p sc => apply_propriety_factor (ew "social_propriety") sc p) s6
  let s8 := opt_factor context.location_context
    (fun l sc => apply_group_factor location_intents (ew "location_context") sc l) s7
  let s9 := opt_factor context.temporal_context
    (fun t sc => apply_temporal_factor (ew "temporal_context") sc t) s8
  let s10 := opt_factor context.user_profile
    (fun u sc => apply_group_factor user_preferences (ew "user_profile") sc u) s9
  opt_factor context.input_fidelity
    (fun f sc => apply_fidelity_factor (ew "input_fidelity") sc f) s10

/-- ContextResolutionEngine.resolve: validate, apply the twelve factors,
clamp, compute per-intent deltas against the base scores, and estimate the
confidence; invalid base scores raise ValueError. -/
def cre_resolve (ew : String → ℚ) (base_scores : List (String × ℚ))
    (context : ContextSnapshot) : Except String ResolutionResult :=
  if !validate_scores base_scores then .error "ValueError" else
  let final := normalize_scores (apply_all_factors ew base_scores context)
  let deltas := List.zipWith (fun rp bp => (rp.1, rp.2 - bp.2)) final base_scores
  let active := snapshot_active_factors context
  .ok ⟨final, active, deltas, estimate_confidence active deltas⟩

/-! ### Feedback statistics (src/core/feedback_manager.py) -/

/-- Running feedback counters as persisted by FeedbackManager. -/
structure FeedbackStats where
  total_feedbacks : Nat
  correct_feedbacks : Nat
  incorrect_feedbacks : Nat
  accuracy : ℚ
  deriving Repr, DecidableEq

/-- Counters of a fresh statistics file. -/
def initial_stats : FeedbackStats := ⟨0, 0, 0, 0⟩

/-- Python banker rounding of a rational to the nearest integer
(round-half-to-even, the semantics of builtin `round`). -/
def halfEvenRound (x : ℚ) : ℤ :=
  let f := x.floor
  let frac := x - f
  if frac < 1/2 then f
  else if 1/2 < frac then f + 1
  else if f % 2 = 0 then f else f + 1

/-- Python `round(x, 1)`. -/
def pyRound1 (x : ℚ) : ℚ := (halfEvenRound (10 * x) : ℚ) / 10

/-- FeedbackManager._compute_accuracy: when any feedback exists, store
`round((correct / total) * 100, 1)` — a percentage, rounded to one
decimal. -/
def compute_accuracy (s : FeedbackStats) : FeedbackStats :=
  if 0 < s.total_feedbacks then
    { s with accuracy :=
        pyRound1 ((s.correct_feedbacks : ℚ) / (s.total_feedbacks : ℚ) * 100) }
  else s

/-- Counter updates of FeedbackManager.process_feedback: bump the correct or
incorrect counter, bump the total, recompute the stored accuracy. -/
def process_feedback (s : FeedbackStats) (was_correct : Bool) : FeedbackStats :=
  let s1 :=
    if was_correct then { s with correct_feedbacks := s.correct_feedbacks + 1 }
    else { s with incorrect_feedbacks := s.incorrect_feedbacks + 1 }
  compute_accuracy { s1 with total_feedbacks := s1.total_feedbacks + 1 }

/-! ### Field-name inventory for the ContextObject naming mismatch -/

/-- Field names declared by the ContextObject dataclass in
context_matrix.py (lines 25-42): the Sanskrit determinant names. -/
def contextObject_dataclass_fields : List String :=
  ["sahacarya", "virodhita", "artha", "prakarana", "linga",
   "shabda_samarthya", "auciti", "desa", "kala", "vyakti", "svara",
   "apabhramsa"]

/-- Keyword arguments passed to the ContextObject constructor by
IntentEngine._build_context_object (intent_engine.py lines 609-622). -/
def build_context_object_kwargs : List String :=
  ["history", "conflict", "purpose", "situation", "indicator", "word_power",
   "propriety", "location", "time", "user_profile", "intonation",
   "distortion"]

/-- Attribute names read from the context object by
IntentEngine._apply_deterministic_check (intent_engine.py lines 396-441). -/
def deterministic_check_attribute_reads : List String :=
  ["conflict", "location", "user_profile", "purpose", "situation", "history"]

/-! ### Supporting lemmas -/

theorem clampQ_nonneg (x : ℚ) : 0 ≤ clampQ x := le_max_left 0 _

theorem clampQ_le_one (x : ℚ) : clampQ x ≤ 1 :=
  max_le (by norm_num) (min_le_left 1 x)

theorem perm_insertDescBy {α : Type} (key : α → ℚ) (x : α) :
    ∀ l : List α, (insertDescBy key x l).Perm (x :: l) := by
  intro l
  induction l with
  | nil => exact List.Perm.refl _
  | cons y ys ih =>
      by_cases h : key y ≤ key x
      · simp [insertDescBy, h]
      · simp only [insertDescBy, if_neg h]
        exact (ih.cons y).trans (List.Perm.swap x y ys)

theorem perm_pySortDescBy {α : Type} (key : α → ℚ) :
    ∀ l : List α, (pySortDescBy key l).Perm l := by
  intro l
  induction l with
  | nil => exact List.Perm.refl _
  | cons x xs ih =>
      exact (perm_insertDescBy key x _).trans (ih.cons x)

theorem pairwise_insertDescBy {α : Type} (key : α → ℚ) (x : α) (l : List α)
    (h : l.Pairwise (fun a b => key b ≤ key a)) :
    (insertDescBy key x l).Pairwise (fun a b => key b ≤ key a) := by
  induction l with
  | nil => simp [insertDescBy]
  | cons y ys ih =>
      by_cases hxy : key y ≤ key x
      · simp only [insertDescBy, if_pos hxy]
        refine List.Pairwise.cons ?_ h
        intro z hz
        rcases List.mem_cons.mp hz with rfl | hz
        · exact hxy
        · exact le_trans (List.rel_of_pairwise_cons h hz) hxy
      · simp only [insertDescBy, if_neg hxy]
        refine List.Pairwise.cons ?_ (ih (List.Pairwise.of_cons h))
        intro z hz
        have hz2 := (perm_insertDescBy key x ys).mem_iff.mp hz
        rcases List.mem_cons.mp hz2 with rfl | hz3
        · exact le_of_not_le hxy
        · exact List.rel_of_pairwise_cons h hz3

theorem pairwise_pySortDescBy {α : Type} (key : α → ℚ) (l : List α) :
    (pySortDescBy key l).Pairwise (fun a b => key b ≤ key a) := by
  induction l with
  | nil => simp [pySortDescBy]
  | cons x xs ih => exact pairwise_insertDescBy key x _ ih

theorem perm_insertAscBy {α : Type} (key : α → ℚ) (x : α) :
    ∀ l : List α, (insertAscBy key x l).Perm (x :: l) := by
  intro l
  induction l with
  | nil => exact List.Perm.refl _
  | cons y ys ih =>
      by_cases h : key x ≤ key y
      · simp [insertAscBy, h]
      · simp only [insertAscBy, if_neg h]
        exact (ih.cons y).trans (List.Perm.swap x y ys)

theorem pairwise_insertAscBy {α : Type} (key : α → ℚ) (x : α) (l : List α)
    (h : l.Pairwise (fun a b => key a ≤ key b)) :
    (insertAscBy key x l).Pairwise (fun a b => key a ≤ key b) := by
  induction l with
  | nil => simp [insertAscBy]
  | cons y ys ih =>
      by_cases hxy : key x ≤ key y
      · simp only [insertAscBy, if_pos hxy]
        refine List.Pairwise.cons ?_ h
        intro z hz
        rcases List.mem_cons.mp hz with rfl | hz
        · exact hxy
        · exact le_trans hxy (List.rel_of_pairwise_cons h hz)
      · simp only [insertAscBy, if_neg hxy]
        refine List.Pairwise.cons ?_ (ih (List.Pairwise.of_cons h))
        intro z hz
        have hz2 := (perm_insertAscBy key x ys).mem_iff.mp hz
        rcases List.mem_cons.mp hz2 with rfl | hz3
        · exact le_of_not_le hxy
        · exact List.rel_of_pairwise_cons h hz3

theorem pairwise_pySortAscBy {α : Type} (key : α → ℚ) (l : List α) :
    (pySortAscBy key l).Pairwise (fun a b => key a ≤ key b) := by
  induction l with
  | nil => simp [pySortAscBy]
  | cons x xs ih => exact pairwise_insertAscBy key x _ ih

theorem pyLastSlice_sublist {α : Type} (l : List α) (k : Nat) :
    (pyLastSlice l k).Sublist l := by
  unfold pyLastSlice
  split
  · exact List.Sublist.refl l
  · exact List.drop_sublist _ l

/-- Resolution outcomes: with nonempty Stage 1 candidates, the
deterministic check of the shipped code always raises — TypeError from the
dict / None constructor call, AttributeError from the distortion read on a
ContextObject when the distortion score is positive, AttributeError from
the conflict read otherwise. -/
theorem adc_error_of_nonempty (cands : List SemanticCandidate)
    (hc : cands.isEmpty = false) (c : CtxArg) (dist : ℚ) (now : Nat) :
    ∃ e, apply_deterministic_check cands c dist now = .error e := by
  unfold apply_deterministic_check build_context_object
  cases c with
  | dict d => exact ⟨kw_error_history, by simp [hc]⟩
  | nil => exact ⟨kw_error_history, by simp [hc]⟩
  | obj o =>
      by_cases hd : 0 < dist
      · exact ⟨attr_error_distortion, by simp [hc, hd]⟩
      · exact ⟨attr_error_conflict, by simp [hc, hd]⟩

/-- Every VerifiedIntent the shipped resolve_with_hybrid_logic actually
returns is the no_semantic_candidates fallback, produced when Stage 1
finds no candidates; every other path raises before returning. -/
theorem resolve_ok_only_fallback (cat : List Intent) (mem : List MemoryEntry)
    (emb : List ℚ) (dist : ℚ) (ctx : CtxArg) (now : Nat)
    (r : VerifiedIntent)
    (h : resolve_with_hybrid_logic cat mem emb dist ctx now = .ok r) :
    r = create_fallback_intent "no_semantic_candidates" 0 false ∧
    get_semantic_candidates cat mem emb = [] := by
  by_cases hc : (get_semantic_candidates cat mem emb).isEmpty
  · refine ⟨?_, List.isEmpty_iff.mp hc⟩
    simp only [resolve_with_hybrid_logic, hc, if_true] at h
    exact (Except.ok.inj h).symm
  · exfalso
    have hcf : (get_semantic_candidates cat mem emb).isEmpty = false := by
      simpa using hc
    obtain ⟨e, he⟩ := adc_error_of_nonempty _ hcf
      (normalize_context_arg ctx) dist now
    simp only [resolve_with_hybrid_logic, hcf, Bool.false_eq_true, if_false,
      he] at h
    exact Except.noConfusion h

theorem length_foldl_eq {α β : Type} (f : List α → β → List α)
    (h : ∀ sc b, (f sc b).length = sc.length) :
    ∀ (l : List β) (sc : List α), (l.foldl f sc).length = sc.length := by
  intro l
  induction l with
  | nil => intro sc; rfl
  | cons x xs ih =>
      intro sc
      simp only [List.foldl_cons]
      rw [ih, h]

theorem length_boost_matching (kws : List String) (d : ℚ)
    (scores : List (String × ℚ)) :
    (boost_matching kws d scores).length = scores.length := by
  simp [boost_matching]

theorem length_apply_all_factors (ew : String → ℚ)
    (base : List (String × ℚ)) (cs : ContextSnapshot) :
    (apply_all_factors ew base cs).length = base.length := by
  unfold apply_all_factors
  have hassoc : ∀ (wq : ℚ) (sc : List (String × ℚ)) (h : List String),
      (apply_association_factor wq sc h).length = sc.length := by
    intro wq sc h
    unfold apply_association_factor
    refine length_foldl_eq _ (fun sc2 b => ?_) h sc
    refine length_foldl_eq _ (fun sc3 row => ?_) _ sc2
    split
    · exact length_boost_matching _ _ _
    · rfl
  have hconf : ∀ (wq : ℚ) (sc : List (String × ℚ)) (ms : List String),
      (apply_conflict_factor wq sc ms).length = sc.length := by
    intro wq sc ms
    unfold apply_conflict_factor
    refine length_foldl_eq _ (fun sc2 b => ?_) ms sc
    split
    · exact length_boost_matching _ _ _
    · rfl
  have hgrp : ∀ (m : List (String × List String)) (wq : ℚ)
      (sc : List (String × ℚ)) (k : String),
      (apply_group_factor m wq sc k).length = sc.length := by
    intro m wq sc k
    unfold apply_group_factor
    split
    · exact length_boost_matching _ _ _
    · rfl
  have hopt : ∀ {γ : Type} (o : Option γ)
      (f : γ → List (String × ℚ) → List (String × ℚ))
      (sc : List (String × ℚ)),
      (∀ g s, (f g s).length = s.length) → (opt_factor o f sc).length = sc.length := by
    intro γ o f sc hf
    cases o
    · rfl
    · exact hf _ _
  rw [hopt _ _ _ (fun g s => by simp [apply_fidelity_factor]),
    hopt _ _ _ (fun g s => hgrp _ _ _ _),
    hopt _ _ _ (fun g s => by
      simp [apply_temporal_factor, length_boost_matching]),
    hopt _ _ _ (fun g s => hgrp _ _ _ _),
    hopt _ _ _ (fun g s => by simp [apply_propriety_factor]),
    hopt _ _ _ (fun g s => by simp [apply_semantic_capacity_factor]),
    hopt _ _ _ (fun g s => hgrp _ _ _ _),
    hopt _ _ _ (fun g s => hgrp _ _ _ _),
    hopt _ _ _ (fun g s => hconf _ _ _),
    hopt _ _ _ (fun g s => hassoc _ _ _)]

theorem length_normalize_scores (scores : List (String × ℚ)) :
    (normalize_scores scores).length = scores.length := by
  simp [normalize_scores]

theorem perm_pySortAscBy {α : Type} (key : α → ℚ) :
    ∀ l : List α, (pySortAscBy key l).Perm l := by
  intro l
  induction l with
  | nil => exact List.Perm.refl _
  | cons x xs ih =>
      exact (perm_insertAscBy key x _).trans (ih.cons x)

theorem length_retrieve_candidates_le (memories : List MemoryEntry)
    (embedding : List ℚ) (top_k : Nat) (hk : top_k ≠ 0) :
    (retrieve_candidates memories embedding top_k).length ≤ top_k := by
  unfold retrieve_candidates
  split
  · simp
  · rename_i hne
    have hn : memories.length ≠ 0 := by
      simpa [List.isEmpty_iff, ← List.length_eq_zero] using hne
    simp only [List.length_map, List.length_reverse]
    have hsortlen :
        (pySortAscBy (fun p : MemoryEntry × ℚ => p.2)
          (memories.map (fun m =>
            let n := qSqrt (dotQ m.embedding m.embedding)
            let n2 := if n = 0 then 1 else n
            (m, dotQ (m.embedding.map (· / n2))
              (if 0 < qSqrt (dotQ embedding embedding) then
                embedding.map (· / qSqrt (dotQ embedding embedding))
              else embedding))))).length = memories.length := by
      rw [(perm_pySortAscBy _ _).length_eq, List.length_map]
    unfold pyLastSlice
    split
    · rename_i h0
      exfalso
      rcases Nat.min_eq_zero_iff.mp h0 with h1 | h1
      · exact hk h1
      · exact hn h1
    · rw [List.length_drop, hsortlen]
      omega

/-! ### Claim theorems -/

/-- One-intent catalog whose single embedding matches the query [1]
perfectly: Stage 1 always finds a candidate, so Stage 2 is always entered
on it.  Used as the concrete failing input of claims C1, C2 and C10. -/
def demo_intent : Intent := { id := "greet", embedding := [1] }

/-- Demo catalog for the concrete failing inputs. -/
def demo_catalog : List Intent := [demo_intent]

/-- C1.  Determinism claim, settled against the shipped code: on the
failing input (a catalog whose Stage 1 finds a candidate, with a dict
context) resolve_with_hybrid_logic never returns a VerifiedIntent at all —
it raises the same TypeError at two different wall-clock timestamps.  The
claim asserts that repeated calls return identical VerifiedIntent results;
the shipped code crashes before returning, so the claimed returns do not
happen (the crash itself is deterministic). -/
theorem C1_crash_at_failing_input :
    resolve_with_hybrid_logic demo_catalog [] [1] 0 (.dict {}) 0 =
      .error kw_error_history ∧
    resolve_with_hybrid_logic demo_catalog [] [1] 0 (.dict {}) 1 =
      .error kw_error_history :=
  ⟨by with_unfolding_all rfl, by with_unfolding_all rfl⟩

/-- C10.  Singleton-result claim, settled against the shipped code: on any
input whose Stage 1 finds a candidate, resolve_intent raises the
constructor TypeError instead of returning a singleton list, for either
value of `return_top_k`; only the empty-catalog fallback path returns, and
there the list indeed has exactly one element. -/
theorem C10_crash_at_failing_input :
    resolve_intent demo_catalog [] "hello" [1] 0 (.dict {}) 0 3 true =
      .error kw_error_history ∧
    resolve_intent demo_catalog [] "hello" [1] 0 (.dict {}) 0 7 true =
      .error kw_error_history ∧
    (resolve_intent [] [] "hello" [1] 0 (.dict {}) 0 3 true).map
      (fun p => p.1.length) = .ok 1 :=
  ⟨by with_unfolding_all rfl, by with_unfolding_all rfl,
    by with_unfolding_all rfl⟩

/-- C6.  The ContextObject naming mismatch: every keyword argument that
IntentEngine._build_context_object passes to the ContextObject constructor
is absent from the field names the ContextObject dataclass declares, and
every context attribute Stage 2 reads is likewise undeclared.  In Python
the constructor call therefore raises
`TypeError: unexpected keyword argument`, and the attribute reads raise
AttributeError, so any resolution that reaches Stage 2 crashes instead of
returning a result. -/
theorem C6_context_field_mismatch :
    build_context_object_kwargs ≠ [] ∧
    build_context_object_kwargs.all
      (fun k => !(contextObject_dataclass_fields.contains k)) = true ∧
    deterministic_check_attribute_reads.all
      (fun a => !(contextObject_dataclass_fields.contains a)) = true := by
  decide

/-- C8 counterexample.  After one correct feedback on fresh statistics the
stored accuracy is 100 (a percentage), not `correct / total = 1`, so the
claim "the stored accuracy value equals correct/total" fails. -/
theorem C8_counterexample :
    (process_feedback initial_stats true).total_feedbacks = 1 ∧
    (process_feedback initial_stats true).correct_feedbacks = 1 ∧
    (process_feedback initial_stats true).accuracy = 100 ∧
    (process_feedback initial_stats true).accuracy ≠
      ((process_feedback initial_stats true).correct_feedbacks : ℚ) /
        ((process_feedback initial_stats true).total_feedbacks : ℚ) := by
  have h1 : (process_feedback initial_stats true).accuracy = 100 := by
    with_unfolding_all rfl
  have h2 : ((process_feedback initial_stats true).correct_feedbacks : ℚ) /
      ((process_feedback initial_stats true).total_feedbacks : ℚ) = 1 := by
    with_unfolding_all rfl
  refine ⟨rfl, rfl, h1, ?_⟩
  rw [h1, h2]
  norm_num

/-- C8 amended.  After every processed feedback the counters satisfy
`total = correct + incorrect`, and whenever `total > 0` the stored accuracy
equals the percentage `round1(correct / total * 100)` (rounded to one
decimal), as FeedbackManager._compute_accuracy computes it. -/
theorem C8_amended_accuracy (s : FeedbackStats) (b : Bool)
    (h : s.total_feedbacks = s.correct_feedbacks + s.incorrect_feedbacks) :
    (process_feedback s b).total_feedbacks =
      (process_feedback s b).correct_feedbacks +
        (process_feedback s b).incorrect_feedbacks ∧
    (0 < (process_feedback s b).total_feedbacks →
      (process_feedback s b).accuracy =
        pyRound1 (((process_feedback s b).correct_feedbacks : ℚ) /
          ((process_feedback s b).total_feedbacks : ℚ) * 100)) := by
  have hfields : ∀ t : FeedbackStats,
      (compute_accuracy t).total_feedbacks = t.total_feedbacks ∧
      (compute_accuracy t).correct_feedbacks = t.correct_feedbacks ∧
      (compute_accuracy t).incorrect_feedbacks = t.incorrect_feedbacks := by
    intro t
    unfold compute_accuracy
    split <;> simp
  have hacc : ∀ t : FeedbackStats, 0 < t.total_feedbacks →
      (compute_accuracy t).accuracy =
        pyRound1 ((t.correct_feedbacks : ℚ) / (t.total_feedbacks : ℚ) * 100) := by
    intro t ht
    unfold compute_accuracy
    rw [if_pos ht]
  cases b
  case true =>
    have hf := hfields ⟨s.total_feedbacks + 1, s.correct_feedbacks + 1,
      s.incorrect_feedbacks, s.accuracy⟩
    have h1 : (process_feedback s true).total_feedbacks =
        s.total_feedbacks + 1 := hf.1
    have h2 : (process_feedback s true).correct_feedbacks =
        s.correct_feedbacks + 1 := hf.2.1
    have h3 : (process_feedback s true).incorrect_feedbacks =
        s.incorrect_feedbacks := hf.2.2
    refine ⟨by omega, fun _ => ?_⟩
    rw [h1, h2]
    exact hacc _ (Nat.succ_pos _)
  case false =>
    have hf := hfields ⟨s.total_feedbacks + 1, s.correct_feedbacks,
      s.incorrect_feedbacks + 1, s.accuracy⟩
    have h1 : (process_feedback s false).total_feedbacks =
        s.total_feedbacks + 1 := hf.1
    have h2 : (process_feedback s false).correct_feedbacks =
        s.correct_feedbacks := hf.2.1
    have h3 : (process_feedback s false).incorrect_feedbacks =
        s.incorrect_feedbacks + 1 := hf.2.2
    refine ⟨by omega, fun _ => ?_⟩
    rw [h1, h2]
    exact hacc _ (Nat.succ_pos _)

/-- C8 witness: the amended statement evaluated after one correct feedback
on fresh statistics. -/
theorem C8_amended_accuracy_witness :
    (process_feedback initial_stats true).total_feedbacks =
      (process_feedback initial_stats true).correct_feedbacks +
        (process_feedback initial_stats true).incorrect_feedbacks ∧
    (process_feedback initial_stats true).accuracy =
      pyRound1 (((process_feedback initial_stats true).correct_feedbacks : ℚ) /
        ((process_feedback initial_stats true).total_feedbacks : ℚ) * 100) := by
  refine ⟨(C8_amended_accuracy initial_stats true rfl).1, ?_⟩
  exact (C8_amended_accuracy initial_stats true rfl).2 (by decide)

/-- Store holding a single exemplar whose embedding points opposite to the
query used in the C9 counterexample. -/
def c9_store : List MemoryEntry := [⟨"some_intent", "some doc", [1]⟩]

/-- C9 counterexample.  Querying the store with the opposite unit vector
returns the raw cosine similarity -1: the attached score is negative, hence
not in [0,1], and matches neither `(1+cos)/2 = 0` nor `max(0,cos) = 0` —
retrieve_candidates never renormalises the cosine. -/
theorem C9_counterexample :
    (retrieve_candidates c9_store [-1] 1).map
      (fun c => c.similarity_score) = [-1] ∧
    ¬(0 ≤ (-1 : ℚ)) := by
  refine ⟨by with_unfolding_all rfl, by norm_num⟩

/-- C9 amended.  For every query the returned exemplars are ranked most
similar first (the attached raw cosine scores are nonincreasing), and an
empty store yields the empty list; the scores themselves are raw cosines
and are not renormalised into [0,1]. -/
theorem C9_amended_ranking (mem : List MemoryEntry) (emb : List ℚ)
    (k : Nat) :
    List.Pairwise
      (fun a b => b.similarity_score ≤ a.similarity_score)
      (retrieve_candidates mem emb k) ∧
    (mem = [] → retrieve_candidates mem emb k = []) := by
  constructor
  · unfold retrieve_candidates
    split
    · simp
    · rw [List.pairwise_map]
      rw [List.pairwise_reverse]
      refine List.Pairwise.sublist (pyLastSlice_sublist _ _) ?_
      exact pairwise_pySortAscBy _ _
  · intro h
    subst h
    rfl

/-- C9 witness: the amended statement evaluated on the concrete store (the
ranking conjunct on a nonempty store, the empty-store conjunct on the empty
store). -/
theorem C9_amended_ranking_witness :
    List.Pairwise
      (fun a b => b.similarity_score ≤ a.similarity_score)
      (retrieve_candidates c9_store [-1] 1) ∧
    retrieve_candidates ([] : List MemoryEntry) [1] 3 = [] :=
  ⟨(C9_amended_ranking c9_store [-1] 1).1,
    (C9_amended_ranking [] [1] 3).2 rfl⟩

/-- Six-intent catalog used by the C5 counterexample (one-dimensional unit
embeddings with distinct similarities to the query [1]). -/
def c5_catalog : List Intent :=
  [{ id := "intent_a", embedding := [9/10] },
   { id := "intent_b", embedding := [8/10] },
   { id := "intent_c", embedding := [7/10] },
   { id := "intent_d", embedding := [6/10] },
   { id := "intent_e", embedding := [5/10] },
   { id := "intent_f", embedding := [4/10] }]

/-- Fast Memory store holding one exemplar that resolves to the catalog
intent with the lowest similarity. -/
def c5_memory : List MemoryEntry := [⟨"intent_f", "past utterance", [1]⟩]

/-- C5 counterexample.  With one memory exemplar pointing at an intent
outside the vector top-5, Stage 1 returns 6 candidates: the merged list is
never truncated to 5, contradicting "truncated to at most 5 candidates". -/
theorem C5_counterexample :
    (get_semantic_candidates c5_catalog c5_memory [1]).length = 6 ∧
    ¬((get_semantic_candidates c5_catalog c5_memory [1]).length ≤ 5) := by
  have h : (get_semantic_candidates c5_catalog c5_memory [1]).length = 6 := by
    with_unfolding_all rfl
  exact ⟨h, by omega⟩

/-- C5 amended.  Stage 1 returns the union of the (at most 5)
memory-sourced candidates and the (at most 5) vector-search candidates,
where a vector-search candidate whose intent id already occurs among the
memory-sourced ids is dropped (memory precedence), sorted by similarity
descending; the merged list is NOT truncated further and can hold up to 10
candidates. -/
theorem C5_amended_stage1 (cat : List Intent) (mem : List MemoryEntry)
    (emb : List ℚ) :
    (get_semantic_candidates cat mem emb).Perm
      (memory_stage1 cat mem emb ++ vector_stage1 cat mem emb) ∧
    List.Pairwise
      (fun a b => b.semantic_similarity ≤ a.semantic_similarity)
      (get_semantic_candidates cat mem emb) ∧
    (memory_stage1 cat mem emb).length ≤ 5 ∧
    (vector_stage1 cat mem emb).length ≤ 5 ∧
    (∀ c ∈ vector_stage1 cat mem emb,
      c.candidate_intent.id ∉
        (memory_stage1 cat mem emb).map (fun x => x.candidate_intent.id)) ∧
    (get_semantic_candidates cat mem emb).length ≤ 10 := by
  have hperm : (get_semantic_candidates cat mem emb).Perm
      (memory_stage1 cat mem emb ++ vector_stage1 cat mem emb) :=
    perm_pySortDescBy _ _
  have hm : (memory_stage1 cat mem emb).length ≤ 5 := by
    unfold memory_stage1
    exact le_trans (List.length_filterMap_le _ _)
      (length_retrieve_candidates_le mem emb 5 (by omega))
  have hv : (vector_stage1 cat mem emb).length ≤ 5 := by
    unfold vector_stage1
    refine le_trans (List.length_filterMap_le _ _) ?_
    exact List.length_take_le 5 _
  refine ⟨hperm, ?_, hm, hv, ?_, ?_⟩
  · exact pairwise_pySortDescBy _ _
  · intro c hc
    unfold vector_stage1 at hc
    rcases List.mem_filterMap.mp hc with ⟨p, _, hsome⟩
    split at hsome
    · simp at hsome
    · rename_i hcond
      rcases Option.map_eq_some'.mp hsome with ⟨i, hfind, hceq⟩
      have hid : i.id = p.1 := by
        have := List.find?_some hfind
        simpa using this
      rw [← hceq]
      show i.id ∉ _
      rw [hid]
      simpa using hcond
  · rw [hperm.length_eq, List.length_append]
    omega

/-- C5 witness: the amended statement evaluated on the counterexample
inputs (memory-precedence conjunct at the concrete vector candidate, plus
the concrete bound). -/
theorem C5_amended_stage1_witness :
    (get_semantic_candidates c5_catalog c5_memory [1]).length ≤ 10 ∧
    (∀ c ∈ vector_stage1 c5_catalog c5_memory [1],
      c.candidate_intent.id ∉
        (memory_stage1 c5_catalog c5_memory [1]).map
          (fun x => x.candidate_intent.id)) :=
  ⟨(C5_amended_stage1 c5_catalog c5_memory [1]).2.2.2.2.2,
    (C5_amended_stage1 c5_catalog c5_memory [1]).2.2.2.2.1⟩

/-- C2.  Fallback-threshold claim, settled against the shipped code: the
hard-stop filtering, boosts and the 0.6 threshold never run.  With Stage 1
candidates present, resolution raises before the first Hard Stop completes
— TypeError from the ContextObject constructor on a dict context,
AttributeError from the distortion read on a ContextObject context with a
positive distortion score, and AttributeError from the conflict read
otherwise — so neither the low_confidence / stage_2_failed fallbacks nor
the winner are ever produced (only the no_semantic_candidates fallback of
an empty Stage 1 is reachable). -/
theorem C2_crash_before_hard_stops :
    resolve_with_hybrid_logic demo_catalog [] [1] (1/2) (.dict {}) 0 =
      .error kw_error_history ∧
    resolve_with_hybrid_logic demo_catalog [] [1] (1/2) (.obj {}) 0 =
      .error attr_error_distortion ∧
    resolve_with_hybrid_logic demo_catalog [] [1] 0 (.obj {}) 0 =
      .error attr_error_conflict :=
  ⟨by with_unfolding_all rfl, by with_unfolding_all rfl,
    by with_unfolding_all rfl⟩

/-- C3.  Sentinel-fallback invariant, settled against the shipped code:
every VerifiedIntent a resolution request actually produces satisfies the
equivalence — the returned intent id is `__fallback_uncertain__` exactly
when the fallback flag is set.  In the shipped code the only producible
result is the no_semantic_candidates sentinel fallback (every other path
raises before returning, claim C6), on which both sides of the equivalence
hold; the claim needs no catalog assumption. -/
theorem C3_sentinel_iff_fallback (cat : List Intent) (mem : List MemoryEntry)
    (emb : List ℚ) (dist : ℚ) (ctx : CtxArg) (now : Nat) (r : VerifiedIntent)
    (h : resolve_with_hybrid_logic cat mem emb dist ctx now = .ok r) :
    (r.intent.id = "__fallback_uncertain__") ↔ (r.fallback_used = true) := by
  obtain ⟨hr, -⟩ := resolve_ok_only_fallback cat mem emb dist ctx now r h
  subst hr
  simp [create_fallback_intent, fallback_intent_obj]

/-- C3 witness: the invariant evaluated on the one reachable result, the
fallback returned for an empty catalog. -/
theorem C3_sentinel_iff_fallback_witness :
    ((create_fallback_intent "no_semantic_candidates" 0 false).intent.id =
      "__fallback_uncertain__") ↔
    ((create_fallback_intent "no_semantic_candidates" 0 false).fallback_used
      = true) :=
  C3_sentinel_iff_fallback [] [] [1] 0 (.dict {}) 0
    (create_fallback_intent "no_semantic_candidates" 0 false)
    (by with_unfolding_all rfl)

theorem estimate_confidence_bounds (af : List String)
    (d : List (String × ℚ)) :
    0 ≤ estimate_confidence af d ∧ estimate_confidence af d ≤ 1 := by
  have h1 : (0 : ℚ) ≤ min 1 ((af.length : ℚ) / 6) :=
    le_min (by norm_num) (by positivity)
  have h2 : min 1 ((af.length : ℚ) / 6) ≤ 1 := min_le_left _ _
  have ha : (0 : ℚ) ≤
      (if d.isEmpty then (0 : ℚ)
       else (d.map (fun p => |p.2|)).sum / (d.length : ℚ)) := by
    by_cases hd : d.isEmpty
    · rw [if_pos hd]
    · rw [if_neg hd]
      refine div_nonneg (List.sum_nonneg ?_) (by positivity)
      intro x hx
      rcases List.mem_map.mp hx with ⟨q, _, rfl⟩
      exact abs_nonneg _
  have h3 : (0 : ℚ) ≤ min 1
      (if d.isEmpty then (0 : ℚ)
       else (d.map (fun p => |p.2|)).sum / (d.length : ℚ)) :=
    le_min (by norm_num) ha
  have h4 : min 1
      (if d.isEmpty then (0 : ℚ)
       else (d.map (fun p => |p.2|)).sum / (d.length : ℚ)) ≤ 1 :=
    min_le_left _ _
  constructor
  · show (0 : ℚ) ≤ 6/10 * min 1 ((af.length : ℚ) / 6) + 4/10 * min 1
      (if d.isEmpty then (0 : ℚ)
       else (d.map (fun p => |p.2|)).sum / (d.length : ℚ))
    linarith
  · show 6/10 * min 1 ((af.length : ℚ) / 6) + 4/10 * min 1
      (if d.isEmpty then (0 : ℚ)
       else (d.map (fun p => |p.2|)).sum / (d.length : ℚ)) ≤ 1
    linarith

/-- C4.  Score bounding: every clamped per-intent score and the confidence
estimate returned by ContextResolutionEngine.resolve lie in [0,1] (for
every weight table, base scores and context), and the confidence and
context-adjusted score of every VerifiedIntent the hybrid resolution
actually returns lie in [0,1] (in the shipped code the only returned
result is the no_semantic_candidates fallback, whose scores are 0; every
other path raises before surfacing a score, claim C6). -/
theorem C4_score_bounding :
    (∀ (ew : String → ℚ) (base : List (String × ℚ)) (cs : ContextSnapshot)
        (r : ResolutionResult), cre_resolve ew base cs = .ok r →
      (∀ p ∈ r.resolved_scores, 0 ≤ p.2 ∧ p.2 ≤ 1) ∧
      0 ≤ r.confidence_estimate ∧ r.confidence_estimate ≤ 1) ∧
    (∀ (cat : List Intent) (mem : List MemoryEntry) (emb : List ℚ)
        (dist : ℚ) (ctx : CtxArg) (now : Nat) (r : VerifiedIntent),
      resolve_with_hybrid_logic cat mem emb dist ctx now = .ok r →
      0 ≤ r.confidence ∧ r.confidence ≤ 1 ∧
      0 ≤ r.context_adjusted_score ∧ r.context_adjusted_score ≤ 1) := by
  constructor
  · intro ew base cs r hok
    unfold cre_resolve at hok
    split at hok
    · exact absurd hok (by simp)
    · have hr := Except.ok.inj hok
      rw [← hr]
      constructor
      · intro p hp
        simp only [normalize_scores] at hp
        rcases List.mem_map.mp hp with ⟨q, _, rfl⟩
        exact ⟨clampQ_nonneg _, clampQ_le_one _⟩
      · exact estimate_confidence_bounds _ _
  · intro cat mem emb dist ctx now r h
    obtain ⟨hr, -⟩ := resolve_ok_only_fallback cat mem emb dist ctx now r h
    subst hr
    norm_num [create_fallback_intent]

/-- Base-score table used to instantiate the CRE theorems concretely. -/
def c4_base : List (String × ℚ) := [("set_timer", 1/2)]

/-- Resolution result of `cre_resolve` on `c4_base` with the empty
snapshot. -/
def c4_result : ResolutionResult :=
  ⟨[("set_timer", 1/2)], [], [("set_timer", 0)], 0⟩

/-- C4 witness: both conjuncts evaluated on concrete resolutions — the CRE
bounds on `c4_base`, and the hybrid bounds on the empty-catalog fallback. -/
theorem C4_score_bounding_witness :
    ((∀ p ∈ c4_result.resolved_scores, 0 ≤ p.2 ∧ p.2 ≤ 1) ∧
      0 ≤ c4_result.confidence_estimate ∧
      c4_result.confidence_estimate ≤ 1) ∧
    (0 ≤ (create_fallback_intent "no_semantic_candidates" 0 false).confidence ∧
      (create_fallback_intent "no_semantic_candidates" 0 false).confidence ≤ 1 ∧
      0 ≤ (create_fallback_intent "no_semantic_candidates" 0 false).context_adjusted_score ∧
      (create_fallback_intent "no_semantic_candidates" 0 false).context_adjusted_score ≤ 1) :=
  ⟨C4_score_bounding.1 (fun _ => 0) c4_base {} c4_result
      (by with_unfolding_all rfl),
    C4_score_bounding.2 [] [] [1] 0 (.dict {}) 0
      (create_fallback_intent "no_semantic_candidates" 0 false)
      (by with_unfolding_all rfl)⟩

/-- C7.  Confidence formula of the overall CRE resolution:
`0.6 * min(1, activeFactorCount/6) + 0.4 * min(1, meanAbsoluteDelta)`,
where the mean absolute delta is the mean absolute per-intent change
between the clamped resolved scores and the base scores (an empty score
table yields 0, as in the source). -/
theorem C7_confidence_formula (ew : String → ℚ) (base : List (String × ℚ))
    (cs : ContextSnapshot) (r : ResolutionResult)
    (h : cre_resolve ew base cs = .ok r) :
    r.confidence_estimate =
      (6/10) * min 1 (((snapshot_active_factors cs).length : ℚ) / 6) +
      (4/10) * min 1
        ((List.zipWith (fun rp bp => |rp.2 - bp.2|) r.resolved_scores base).sum /
          (base.length : ℚ)) := by
  unfold cre_resolve at h
  split at h
  · exact absurd h (by simp)
  · have hr := Except.ok.inj h
    rw [← hr]
    show estimate_confidence _ _ = _
    unfold estimate_confidence
    have hlenf :
        (normalize_scores (apply_all_factors ew base cs)).length = base.length := by
      rw [length_normalize_scores, length_apply_all_factors]
    have hlen :
        (List.zipWith (fun rp bp : String × ℚ => (rp.1, rp.2 - bp.2))
          (normalize_scores (apply_all_factors ew base cs)) base).length =
          base.length := by
      rw [List.length_zipWith, hlenf, min_self]
    have hmap :
        ((List.zipWith (fun rp bp : String × ℚ => (rp.1, rp.2 - bp.2))
            (normalize_scores (apply_all_factors ew base cs)) base).map
          (fun p => |p.2|)) =
        List.zipWith (fun rp bp : String × ℚ => |rp.2 - bp.2|)
          (normalize_scores (apply_all_factors ew base cs)) base := by
      rw [List.map_zipWith]
    by_cases hde : (List.zipWith (fun rp bp : String × ℚ => (rp.1, rp.2 - bp.2))
        (normalize_scores (apply_all_factors ew base cs)) base).isEmpty
    · have hbase : base = [] := by
        have h0 := List.isEmpty_iff.mp hde
        have := hlen
        rw [h0] at this
        exact List.length_eq_zero.mp this.symm
      subst hbase
      simp
    · rw [if_neg (by simpa using hde), hmap, hlen]

/-- C7 witness: the confidence formula evaluated on the concrete CRE
resolution of `c4_base` under the empty snapshot. -/
theorem C7_confidence_formula_witness :
    c4_result.confidence_estimate =
      (6/10) * min 1 (((snapshot_active_factors {}).length : ℚ) / 6) +
      (4/10) * min 1
        ((List.zipWith (fun rp bp => |rp.2 - bp.2|) c4_result.resolved_scores
            c4_base).sum / (c4_base.length : ℚ)) :=
  C7_confidence_formula (fun _ => 0) c4_base {} c4_result
    (by with_unfolding_all rfl)

end Sphota

